import Mathlib

/-!
Verification development for the Nurse Ally mock backend
(`server/mock-api.js`): a shallow embedding of the triage classifier,
clinic directory, insurance summarizer, conversation session store and
reply composer, followed by theorems about the specified behaviour.
-/

set_option maxRecDepth 4096

namespace NurseAlly

/-- Boolean prefix-and-scan substring test over character lists; this is the
semantics of JavaScript `String.prototype.includes`. -/
def includesList (sub : List Char) : List Char → Bool
  | [] => sub.isEmpty
  | c :: rest => (sub.isPrefixOf (c :: rest)) || includesList sub rest

/-- Embedding of `haystack.includes(needle)` from the source. -/
def jsIncludes (haystack needle : String) : Bool :=
  includesList needle.data haystack.data

/-- Embedding of `s.toLowerCase()` from the source: lower-case every
character (the source only ever matches ASCII keywords). -/
def jsToLower (s : String) : String :=
  ⟨s.data.map Char.toLower⟩

/-- Embedding of the JavaScript `x || d` default idiom on an optional
string (`undefined` and the empty string are falsy). -/
def jsOrStr (v : Option String) (d : String) : String :=
  match v with
  | none => d
  | some s => if s = "" then d else s

/-- Result record of `mockTriageSymptoms` (mock-api.js lines 45-63). -/
structure TriageResult where
  urgency_level : String
  reasoning : String
  recommendations : List String
  deriving Repr, DecidableEq

/-- The `emergency` keyword list (mock-api.js line 35). -/
def emergencyKeywords : List String :=
  ["chest pain", "difficulty breathing", "severe bleeding", "unconscious", "stroke", "heart attack"]

/-- The `high` keyword list (mock-api.js line 36). -/
def highKeywords : List String :=
  ["severe pain", "high fever", "vomiting blood", "severe headache", "difficulty swallowing"]

/-- The `medium` keyword list (mock-api.js line 37). -/
def mediumKeywords : List String :=
  ["fever", "persistent cough", "moderate pain", "rash", "nausea"]

/-- The `low` keyword list (mock-api.js line 38). -/
def lowKeywords : List String :=
  ["mild headache", "minor cut", "cold symptoms", "fatigue"]

/-- The `urgencyKeywords` object in `Object.entries` iteration order
(insertion order: emergency, high, medium, low). -/
def urgencyKeywords : List (String × List String) :=
  [("emergency", emergencyKeywords),
   ("high", highKeywords),
   ("medium", mediumKeywords),
   ("low", lowKeywords)]

/-- The nested recommendation ternary of mock-api.js lines 48-54. -/
def recommendationsFor (level : String) : List String :=
  if level = "emergency" then
    ["Call 911 immediately", "Go to nearest emergency room"]
  else if level = "high" then
    ["Seek immediate medical attention", "Visit urgent care or emergency room"]
  else if level = "medium" then
    ["Schedule appointment with primary care", "Consider urgent care if symptoms worsen"]
  else
    ["Monitor symptoms", "Rest and self-care", "Contact doctor if symptoms persist"]

/-- Embedding of `mockTriageSymptoms` (mock-api.js lines 33-64): lower-case
the input, scan the four keyword sets in declaration order, return the
first tier with a substring hit, defaulting to `low`. -/
def mockTriageSymptoms (symptoms : String) : TriageResult :=
  let lowerSymptoms := jsToLower symptoms
  match urgencyKeywords.find? (fun e => e.2.any (fun keyword => jsIncludes lowerSymptoms keyword)) with
  | some e =>
      { urgency_level := e.1,
        reasoning := "Based on the symptoms described, this appears to be " ++ e.1 ++ " urgency.",
        recommendations := recommendationsFor e.1 }
  | none =>
      { urgency_level := "low",
        reasoning := "Symptoms appear to be minor and manageable.",
        recommendations := ["Monitor symptoms", "Rest and self-care", "Contact doctor if symptoms persist"] }

/-- A clinic record (mock-api.js lines 69-76 and analogues). -/
structure ClinicRecord where
  name : String
  address : String
  phone : String
  type : String
  wait_time : String
  accepts_insurance : Bool
  deriving Repr, DecidableEq

/-- The `emergency` entry of the `clinics` object (mock-api.js lines 68-77). -/
def emergencyClinics (location : String) : List ClinicRecord :=
  [{ name := "City General Hospital Emergency Room",
     address := "123 Main St, " ++ location,
     phone := "(555) 911-1234",
     type := "Emergency Room",
     wait_time := "15-30 minutes",
     accepts_insurance := true }]

/-- The `high` entry of the `clinics` object (mock-api.js lines 78-87). -/
def highClinics (location : String) : List ClinicRecord :=
  [{ name := "QuickCare Urgent Care",
     address := "456 Oak Ave, " ++ location,
     phone := "(555) 555-0123",
     type := "Urgent Care",
     wait_time := "30-45 minutes",
     accepts_insurance := true }]

/-- The `medium` entry of the `clinics` object (mock-api.js lines 88-97). -/
def mediumClinics (location : String) : List ClinicRecord :=
  [{ name := "Family Health Center",
     address := "789 Pine St, " ++ location,
     phone := "(555) 555-0456",
     type := "Primary Care",
     wait_time := "Same day appointments available",
     accepts_insurance := true }]

/-- The `low` entry of the `clinics` object (mock-api.js lines 98-107). -/
def lowClinics (location : String) : List ClinicRecord :=
  [{ name := "Community Health Clinic",
     address := "321 Elm St, " ++ location,
     phone := "(555) 555-0789",
     type := "Primary Care",
     wait_time := "Next day appointments",
     accepts_insurance := true }]

/-- The `clinics` object keyed by urgency tier (mock-api.js lines 67-108). -/
def clinicsMap (location : String) : List (String × List ClinicRecord) :=
  [("emergency", emergencyClinics location),
   ("high", highClinics location),
   ("medium", mediumClinics location),
   ("low", lowClinics location)]

/-- Result record of `mockFindClinic` (mock-api.js lines 110-114). -/
structure FindClinicResult where
  clinics : List ClinicRecord
  location : String
  urgency_level : String
  deriving Repr, DecidableEq

/-- Embedding of `mockFindClinic` (mock-api.js lines 66-115): key lookup in
the clinics object, with `clinics[urgency] || clinics.low` falling back to
the `low` list for unknown urgency values (every stored list is a
non-empty array, hence truthy). -/
def mockFindClinic (location urgency : String) : FindClinicResult :=
  { clinics :=
      match (clinicsMap location).find? (fun e => e.1 = urgency) with
      | some e => e.2
      | none => lowClinics location,
    location := location,
    urgency_level := urgency }

/-- The `coverage_details` object (mock-api.js lines 123-129). -/
structure CoverageDetails where
  primary_care : String
  specialist : String
  urgent_care : String
  emergency_room : String
  prescription_drugs : String
  deriving Repr, DecidableEq

/-- Result record of `mockInsuranceCheck` (mock-api.js lines 118-137). -/
structure InsuranceSummary where
  plan_name : String
  provider : String
  member_id : String
  group_number : String
  coverage_details : CoverageDetails
  key_benefits : List String
  filename : String
  deriving Repr, DecidableEq

/-- Embedding of `mockInsuranceCheck` (mock-api.js lines 117-138): a fixed
record, with the `filename` field set to the input. -/
def mockInsuranceCheck (filename : String) : InsuranceSummary :=
  { plan_name := "Health Plus Premium Plan",
    provider := "Blue Cross Blue Shield",
    member_id := "ABC123456789",
    group_number := "GRP001",
    coverage_details :=
      { primary_care := "$25 copay",
        specialist := "$50 copay",
        urgent_care := "$75 copay",
        emergency_room := "$300 copay",
        prescription_drugs := "$10/$30/$60 copay" },
    key_benefits :=
      ["Preventive care covered 100%",
       "Annual deductible: $1,500",
       "Out-of-pocket maximum: $6,000",
       "Network coverage nationwide"],
    filename := filename }

/-- Greeting-branch condition of mock-api.js line 168. -/
def greetingHit (lowerMessage : String) : Bool :=
  jsIncludes lowerMessage "hello" || jsIncludes lowerMessage "hi"

/-- Pain-branch condition of mock-api.js line 170. -/
def painHit (lowerMessage : String) : Bool :=
  jsIncludes lowerMessage "pain" || jsIncludes lowerMessage "hurt" || jsIncludes lowerMessage "ache"

/-- Fever-branch condition of mock-api.js line 184. -/
def feverHit (lowerMessage : String) : Bool :=
  jsIncludes lowerMessage "fever" || jsIncludes lowerMessage "temperature"

/-- Insurance-branch condition of mock-api.js line 194. -/
def insuranceHit (lowerMessage : String) : Bool :=
  jsIncludes lowerMessage "insurance" || jsIncludes lowerMessage "coverage"

/-- Clinic-branch condition of mock-api.js line 196. -/
def clinicHit (lowerMessage : String) : Bool :=
  jsIncludes lowerMessage "clinic" || jsIncludes lowerMessage "doctor" || jsIncludes lowerMessage "appointment"

/-- The `.map(rec => `• ${rec}`).join('\n')` idiom used for
recommendation lists (mock-api.js lines 178 and 191). -/
def bulletJoin (items : List String) : String :=
  String.intercalate "\n" (items.map (fun r => "• " ++ r))

/-- One clinic line of the pain-branch template (mock-api.js line 181). -/
def clinicLine (c : ClinicRecord) : String :=
  "• " ++ c.name ++ " - " ++ c.address ++ " - " ++ c.phone ++ " (" ++ c.wait_time ++ ")"

/-- One clinic block of the clinic-branch template (mock-api.js line 202). -/
def clinicBlock (c : ClinicRecord) : String :=
  "• " ++ c.name ++ "\n  " ++ c.address ++ "\n  " ++ c.phone ++ "\n  " ++ c.wait_time

/-- Greeting reply string (mock-api.js line 169). -/
def greetingReply : String :=
  "Hello! I\x27m Nurse Ally, your virtual nursing assistant. I\x27m here to help you understand your symptoms and guide you to appropriate care. What symptoms are you experiencing today?"

/-- The emergency warning string of the pain-branch ternary
(mock-api.js line 183, true arm). -/
def emergencyWarning : String :=
  "⚠️ If this is a medical emergency, please call 911 immediately."

/-- The generic virtual-assistant disclaimer of the pain-branch ternary
(mock-api.js line 183, false arm). -/
def genericDisclaimer : String :=
  "Please remember that I\x27m a virtual assistant and cannot replace professional medical evaluation."

/-- The fixed opening of the pain-branch template, up to the point where
the assessed tier is interpolated (mock-api.js line 175). -/
def painIntro : String :=
  "I understand you\x27re experiencing pain. Based on your symptoms, I\x27ve assessed this as "

/-- Pain-branch reply template (mock-api.js lines 171-183). -/
def painReply (message location : String) : String :=
  let triage := mockTriageSymptoms message
  let clinics := mockFindClinic location triage.urgency_level
  painIntro
    ++ triage.urgency_level ++ " urgency. " ++ triage.reasoning
    ++ "\n\nMy recommendations:\n"
    ++ bulletJoin triage.recommendations
    ++ "\n\nHere are some nearby healthcare options in " ++ location ++ ":\n"
    ++ String.intercalate "\n" (clinics.clinics.map clinicLine)
    ++ "\n\n"
    ++ (if triage.urgency_level = "emergency" then emergencyWarning else genericDisclaimer)

/-- Fever-branch reply template (mock-api.js lines 185-193). -/
def feverReply (message : String) : String :=
  let triage := mockTriageSymptoms message
  "I see you\x27re experiencing a fever. This is concerning and I want to help you get the right care. Based on your symptoms, I\x27ve assessed this as "
    ++ triage.urgency_level ++ " urgency.\n\n" ++ triage.reasoning
    ++ "\n\nMy recommendations:\n"
    ++ bulletJoin triage.recommendations
    ++ "\n\nIn the meantime, make sure to stay hydrated and rest. If your fever is very high (over 103°F) or you\x27re experiencing difficulty breathing, please seek immediate medical attention."

/-- Insurance-branch reply string (mock-api.js line 195). -/
def insuranceReply : String :=
  "I can help you understand your insurance coverage! If you have your insurance card or policy document, you can upload it and I\x27ll help you understand your benefits. You can also tell me your insurance provider and I\x27ll give you general guidance about finding in-network providers."

/-- Clinic-branch reply template (mock-api.js lines 197-204). -/
def clinicReplyText (location : String) : String :=
  let clinics := mockFindClinic location "medium"
  "I can help you find healthcare providers in " ++ location ++ ". Here are some options:\n\n"
    ++ String.intercalate "\n\n" (clinics.clinics.map clinicBlock)
    ++ "\n\nWould you like me to help you understand what type of care might be best for your specific symptoms?"

/-- Fallback clarifying-question reply (mock-api.js lines 206-213). -/
def fallbackReply : String :=
  "Thank you for sharing that with me. I\x27m here to help assess your symptoms and guide you to appropriate care. \n\nCould you tell me more about:\n• What specific symptoms you\x27re experiencing?\n• How long you\x27ve had these symptoms?\n• How severe they are on a scale of 1-10?\n\nThis information will help me better understand your situation and provide appropriate guidance. Remember, if you\x27re experiencing a medical emergency, please call 911 immediately."

/-- The reply-composition if/else-if chain of the `/api/chat` handler
(mock-api.js lines 164-214): `profileLocation` is `profile.location`
(`profile` defaults to `{}`), applied through `profile.location || 'your area'`
in the pain and clinic branches. -/
def composeReply (message : String) (profileLocation : Option String) : String :=
  let lowerMessage := jsToLower message
  if greetingHit lowerMessage then
    greetingReply
  else if painHit lowerMessage then
    painReply message (jsOrStr profileLocation "your area")
  else if feverHit lowerMessage then
    feverReply message
  else if insuranceHit lowerMessage then
    insuranceReply
  else if clinicHit lowerMessage then
    clinicReplyText (jsOrStr profileLocation "your area")
  else
    fallbackReply

/-- One entry of a conversation history
(mock-api.js lines 162 and 217: `{ role, content }`). -/
structure ChatMessage where
  role : String
  content : String
  deriving Repr, DecidableEq

/-- The `conversationStore` object (mock-api.js line 141): a keyed mapping
from user id to a message array; an absent key is `undefined` (`none`). -/
def ConversationStore : Type :=
  String → Option (List ChatMessage)

/-- The initial, empty `conversationStore`. -/
def emptyStore : ConversationStore :=
  fun _ => none

/-- Embedding of the handler's append pattern (mock-api.js lines 157-162
and 217): initialize the entry to `[]` when absent, then push. -/
def storeAppend (s : ConversationStore) (uid : String) (m : ChatMessage) : ConversationStore :=
  fun u => if u = uid then some (((s uid).getD []) ++ [m]) else s u

/-- Modelled from the spec: the session store contract names a
`get_history(user_id)` observation that the source never exposes as a
function; per spec section 4.4 an absent key is treated as an empty
session. -/
def getHistory (s : ConversationStore) (uid : String) : List ChatMessage :=
  (s uid).getD []

/-- Embedding of `delete conversationStore[user_id]` guarded by the
truthiness test of mock-api.js lines 260-262 (every stored array is
truthy, so a present key is always deleted). -/
def resetStore (s : ConversationStore) (uid : String) : ConversationStore :=
  match s uid with
  | some _ => fun u => if u = uid then none else s u
  | none => s

/-- Falsiness of the destructured `message` field of the chat request body
(`undefined` or the empty string). -/
def jsFalsy (v : Option String) : Bool :=
  match v with
  | none => true
  | some s => s = ""

/-- Observable response of the `/api/chat` handler (status code, error
body, reply body); the time-dependent `thread_id` is not modelled. -/
structure ChatResponseModel where
  status : Nat
  error : Option String
  reply : Option String
  deriving Repr, DecidableEq

/-- Embedding of the `/api/chat` handler (mock-api.js lines 148-229):
destructure `message`, `profile = {}` and `user_id = 'default'`; return
400 when `message` is falsy; otherwise append the user message, compose
the reply, append the assistant reply, and return 200. -/
def chatHandler (s : ConversationStore) (message profileLocation user_id : Option String) :
    ChatResponseModel × ConversationStore :=
  let uid := user_id.getD "default"
  if jsFalsy message then
    ({ status := 400, error := some "Message is required", reply := none }, s)
  else
    let msg := message.getD ""
    let s1 := storeAppend s uid { role := "user", content := msg }
    let reply := composeReply msg profileLocation
    let s2 := storeAppend s1 uid { role := "assistant", content := reply }
    ({ status := 200, error := none, reply := some reply }, s2)

/-- Observable response of the `/api/reset-conversation` handler. -/
structure ResetResponseModel where
  status : Nat
  message : String
  deriving Repr, DecidableEq

/-- Embedding of the `/api/reset-conversation` handler
(mock-api.js lines 256-273): `user_id = 'default'`, conditional delete,
unconditional success response. -/
def resetHandler (s : ConversationStore) (user_id : Option String) :
    ResetResponseModel × ConversationStore :=
  let uid := user_id.getD "default"
  ({ status := 200, message := "Conversation reset successfully" }, resetStore s uid)

/-- The parts of `req.file` the `/api/upload` handler reads. -/
structure UploadFile where
  originalname : String
  mimetype : String
  deriving Repr, DecidableEq

/-- Observable response of the `/api/upload` handler. -/
structure UploadResponseModel where
  status : Nat
  error : Option String
  filename : Option String
  insurance_summary : Option InsuranceSummary
  message : Option String
  deriving Repr, DecidableEq

/-- Embedding of the `/api/upload` handler (mock-api.js lines 231-254):
400 when no file, 400 when the mimetype is not `application/pdf`,
otherwise the fixed insurance summary for the original file name. -/
def uploadHandler (file : Option UploadFile) : UploadResponseModel :=
  match file with
  | none =>
      { status := 400, error := some "No file provided",
        filename := none, insurance_summary := none, message := none }
  | some f =>
      if f.mimetype ≠ "application/pdf" then
        { status := 400, error := some "Only PDF files are allowed",
          filename := none, insurance_summary := none, message := none }
      else
        { status := 200, error := none,
          filename := some f.originalname,
          insurance_summary := some (mockInsuranceCheck f.originalname),
          message := some "Insurance document processed successfully" }

/-- The Boolean substring scan agrees with list-infix containment. -/
theorem includesList_iff_infix (sub l : List Char) :
    includesList sub l = true ↔ sub <:+: l := by
  induction l with
  | nil =>
      simp [includesList, List.isEmpty_iff]
  | cons c rest ih =>
      simp [includesList, List.infix_cons_iff, ih, List.isPrefixOf_iff_prefix]

/-- `jsIncludes` agrees with string-level infix decomposition. -/
theorem jsIncludes_iff (s sub : String) :
    jsIncludes s sub = true ↔ ∃ p q : String, s = p ++ sub ++ q := by
  rw [jsIncludes, includesList_iff_infix]
  constructor
  · rintro ⟨p, q, hpq⟩
    refine ⟨⟨p⟩, ⟨q⟩, ?_⟩
    apply String.ext
    simpa [String.data_append] using hpq.symm
  · rintro ⟨p, q, hpq⟩
    exact ⟨p.data, q.data, by simpa [String.data_append] using congrArg String.data hpq.symm⟩

/-- Claim C1: any text containing an emergency-tier keyword (on the
lower-cased text) classifies as the `emergency` tier, whatever other
keywords it contains, because the emergency keyword set is tested first. -/
theorem triage_emergency_priority (symptoms : String)
    (h : ∃ k ∈ emergencyKeywords, jsIncludes (jsToLower symptoms) k = true) :
    (mockTriageSymptoms symptoms).urgency_level = "emergency" := by
  obtain ⟨k, hk, hinc⟩ := h
  have hany : emergencyKeywords.any (fun keyword => jsIncludes (jsToLower symptoms) keyword) = true :=
    List.any_eq_true.mpr ⟨k, hk, hinc⟩
  simp only [mockTriageSymptoms, urgencyKeywords]
  rw [List.find?_cons_of_pos _ (by simpa using hany)]

/-- Claim C1 witness: a text holding both an emergency keyword and a
low-tier keyword still classifies as emergency. -/
theorem triage_emergency_priority_witness :
    (mockTriageSymptoms "I have chest pain and a mild headache").urgency_level = "emergency" :=
  triage_emergency_priority "I have chest pain and a mild headache"
    ⟨"chest pain", by decide, by decide⟩

/-- Claim C2: classification is total — the tier is always one of the four
tier names — and when no keyword of any tier matches the lower-cased
text, the result is the `low` tier with the generic reasoning string and
the fixed low-tier recommendation list. -/
theorem triage_total_default (text : String) :
    (mockTriageSymptoms text).urgency_level ∈ (["emergency", "high", "medium", "low"] : List String) ∧
    ((∀ e ∈ urgencyKeywords, ∀ k ∈ e.2, jsIncludes (jsToLower text) k = false) →
      mockTriageSymptoms text =
        { urgency_level := "low",
          reasoning := "Symptoms appear to be minor and manageable.",
          recommendations := ["Monitor symptoms", "Rest and self-care", "Contact doctor if symptoms persist"] }) := by
  constructor
  · simp only [mockTriageSymptoms]
    cases hf : urgencyKeywords.find? (fun e => e.2.any (fun keyword => jsIncludes (jsToLower text) keyword)) with
    | none => simp
    | some e =>
        have he := List.mem_of_find?_eq_some hf
        simp only [urgencyKeywords, List.mem_cons, List.not_mem_nil, or_false] at he
        rcases he with rfl | rfl | rfl | rfl <;> simp
  · intro hnone
    have hf : urgencyKeywords.find? (fun e => e.2.any (fun keyword => jsIncludes (jsToLower text) keyword)) = none := by
      rw [List.find?_eq_none]
      intro e he
      simp only [List.any_eq_true, not_exists, not_and]
      intro k hk
      simp [hnone e he k hk]
    simp [mockTriageSymptoms, hf]

/-- Claim C2 witness: a keyword-free text gets the default low-tier result. -/
theorem triage_total_default_witness :
    (mockTriageSymptoms "hello there").urgency_level ∈ (["emergency", "high", "medium", "low"] : List String) ∧
    mockTriageSymptoms "hello there" =
      { urgency_level := "low",
        reasoning := "Symptoms appear to be minor and manageable.",
        recommendations := ["Monitor symptoms", "Rest and self-care", "Contact doctor if symptoms persist"] } :=
  ⟨(triage_total_default "hello there").1,
   (triage_total_default "hello there").2 (by decide)⟩

/-- Claim C4: the reply composer dispatches on the lower-cased message in
the strict order greeting, pain, fever, insurance, clinic, fallback, and
the first matching branch alone determines the reply. -/
theorem compose_dispatch_order (message : String) (loc : Option String) :
    (greetingHit (jsToLower message) = true →
        composeReply message loc = greetingReply) ∧
    (greetingHit (jsToLower message) = false →
      painHit (jsToLower message) = true →
        composeReply message loc = painReply message (jsOrStr loc "your area")) ∧
    (greetingHit (jsToLower message) = false →
      painHit (jsToLower message) = false →
      feverHit (jsToLower message) = true →
        composeReply message loc = feverReply message) ∧
    (greetingHit (jsToLower message) = false →
      painHit (jsToLower message) = false →
      feverHit (jsToLower message) = false →
      insuranceHit (jsToLower message) = true →
        composeReply message loc = insuranceReply) ∧
    (greetingHit (jsToLower message) = false →
      painHit (jsToLower message) = false →
      feverHit (jsToLower message) = false →
      insuranceHit (jsToLower message) = false →
      clinicHit (jsToLower message) = true →
        composeReply message loc = clinicReplyText (jsOrStr loc "your area")) ∧
    (greetingHit (jsToLower message) = false →
      painHit (jsToLower message) = false →
      feverHit (jsToLower message) = false →
      insuranceHit (jsToLower message) = false →
      clinicHit (jsToLower message) = false →
        composeReply message loc = fallbackReply) := by
  refine ⟨?_, ?_, ?_, ?_, ?_, ?_⟩ <;> intros <;> simp_all [composeReply]

/-- Claim C4 witness: one concrete message per branch, in priority order. -/
theorem compose_dispatch_order_witness :
    composeReply "hello" none = greetingReply ∧
    composeReply "my arm hurts" none = painReply "my arm hurts" "your area" ∧
    composeReply "temperature 102" none = feverReply "temperature 102" ∧
    composeReply "question about insurance" none = insuranceReply ∧
    composeReply "book appointment" none = clinicReplyText "your area" ∧
    composeReply "ok" none = fallbackReply :=
  ⟨(compose_dispatch_order "hello" none).1 (by decide),
   (compose_dispatch_order "my arm hurts" none).2.1 (by decide) (by decide),
   (compose_dispatch_order "temperature 102" none).2.2.1 (by decide) (by decide) (by decide),
   (compose_dispatch_order "question about insurance" none).2.2.2.1
     (by decide) (by decide) (by decide) (by decide),
   (compose_dispatch_order "book appointment" none).2.2.2.2.1
     (by decide) (by decide) (by decide) (by decide) (by decide),
   (compose_dispatch_order "ok" none).2.2.2.2.2
     (by decide) (by decide) (by decide) (by decide) (by decide)⟩

/-- Claim C3 counterexample: "heart attack" triages as emergency, yet its
composed reply (the fallback branch fires, since no pain keyword occurs
in the message) does not contain the emergency warning sentence. -/
theorem emergency_reply_warning_counterexample :
    (mockTriageSymptoms "heart attack").urgency_level = "emergency" ∧
    ¬ ∃ p q : String, composeReply "heart attack" none = p ++ emergencyWarning ++ q := by
  constructor
  · decide
  · intro hex
    have hj := (jsIncludes_iff (composeReply "heart attack" none) emergencyWarning).mpr hex
    revert hj
    decide

/-- Claim C3 (amended): for every chat message dispatched to the pain
branch (no greeting keyword, at least one pain keyword) whose triage is
the emergency tier, the composed reply ends with the distinct emergency
warning sentence, does not end with the generic virtual-assistant
disclaimer (which stands in the warning's place in all other tiers), and
states the assessed tier right after the fixed intro that ends with
"assessed this as". -/
theorem emergency_reply_warning (message : String) (loc : Option String)
    (hg : greetingHit (jsToLower message) = false)
    (hp : painHit (jsToLower message) = true)
    (he : (mockTriageSymptoms message).urgency_level = "emergency") :
    (∃ p : String, composeReply message loc = p ++ emergencyWarning) ∧
    (¬ ∃ p : String, composeReply message loc = p ++ genericDisclaimer) ∧
    (∃ q : String, composeReply message loc = painIntro ++ ("emergency" ++ q)) := by
  have hc : composeReply message loc = painReply message (jsOrStr loc "your area") := by
    simp [composeReply, hg, hp]
  obtain ⟨B, hB⟩ : ∃ p : String, composeReply message loc = p ++ emergencyWarning := by
    rw [hc]
    simp only [painReply, he, if_pos]
    exact ⟨_, rfl⟩
  refine ⟨⟨B, hB⟩, ?_, ?_⟩
  · rintro ⟨p, hp2⟩
    have h1 : emergencyWarning.data <:+ (composeReply message loc).data := by
      rw [hB]
      simp [String.data_append]
    have h2 : genericDisclaimer.data <:+ (composeReply message loc).data := by
      rw [hp2]
      simp [String.data_append]
    rcases List.suffix_or_suffix_of_suffix h1 h2 with h | h
    · exact absurd h (by decide)
    · exact absurd h (by decide)
  · rw [hc]
    simp only [painReply, he, String.append_assoc]
    exact ⟨_, rfl⟩

/-- Claim C3 (amended) witness: the message "I have chest pain" with a
profile location takes the pain branch, triages emergency, and its reply
ends with the warning sentence rather than the generic disclaimer. -/
theorem emergency_reply_warning_witness :
    (∃ p : String, composeReply "I have chest pain" (some "Boston") = p ++ emergencyWarning) ∧
    (¬ ∃ p : String, composeReply "I have chest pain" (some "Boston") = p ++ genericDisclaimer) ∧
    (∃ q : String, composeReply "I have chest pain" (some "Boston") = painIntro ++ ("emergency" ++ q)) :=
  emergency_reply_warning "I have chest pain" (some "Boston") (by decide) (by decide) (by decide)

/-- Claim C5: for each of the four valid tiers, the clinic finder returns
exactly one clinic whose address ends with ", " followed by the location;
any other urgency value falls back to the low tier's clinic list. -/
theorem find_clinics_spec (location urgency : String) :
    (urgency ∈ (["emergency", "high", "medium", "low"] : List String) →
      ∃ c : ClinicRecord, (mockFindClinic location urgency).clinics = [c] ∧
        ∃ p : String, c.address = p ++ (", " ++ location)) ∧
    (urgency ∉ (["emergency", "high", "medium", "low"] : List String) →
      (mockFindClinic location urgency).clinics = lowClinics location) := by
  constructor
  · intro hmem
    fin_cases hmem
    · refine ⟨{ name := "City General Hospital Emergency Room",
                address := "123 Main St, " ++ location, phone := "(555) 911-1234",
                type := "Emergency Room", wait_time := "15-30 minutes",
                accepts_insurance := true },
        by simp [mockFindClinic, clinicsMap, emergencyClinics], "123 Main St", ?_⟩
      rw [← String.append_assoc]
      rfl
    · refine ⟨{ name := "QuickCare Urgent Care",
                address := "456 Oak Ave, " ++ location, phone := "(555) 555-0123",
                type := "Urgent Care", wait_time := "30-45 minutes",
                accepts_insurance := true },
        by simp [mockFindClinic, clinicsMap, highClinics], "456 Oak Ave", ?_⟩
      rw [← String.append_assoc]
      rfl
    · refine ⟨{ name := "Family Health Center",
                address := "789 Pine St, " ++ location, phone := "(555) 555-0456",
                type := "Primary Care", wait_time := "Same day appointments available",
                accepts_insurance := true },
        by simp [mockFindClinic, clinicsMap, mediumClinics], "789 Pine St", ?_⟩
      rw [← String.append_assoc]
      rfl
    · refine ⟨{ name := "Community Health Clinic",
                address := "321 Elm St, " ++ location, phone := "(555) 555-0789",
                type := "Primary Care", wait_time := "Next day appointments",
                accepts_insurance := true },
        by simp [mockFindClinic, clinicsMap, lowClinics], "321 Elm St", ?_⟩
      rw [← String.append_assoc]
      rfl
  · intro hmem
    simp only [List.mem_cons, List.not_mem_nil, or_false, not_or] at hmem
    obtain ⟨h1, h2, h3, h4⟩ := hmem
    simp [mockFindClinic, clinicsMap, List.find?, Ne.symm h1, Ne.symm h2, Ne.symm h3, Ne.symm h4]

/-- Claim C5 witness: the emergency tier yields one clinic ending in
", Boston"; the invalid urgency "urgent" falls back to the low clinic. -/
theorem find_clinics_spec_witness :
    (∃ c : ClinicRecord, (mockFindClinic "Boston" "emergency").clinics = [c] ∧
      ∃ p : String, c.address = p ++ (", " ++ "Boston")) ∧
    (mockFindClinic "Boston" "urgent").clinics = lowClinics "Boston" :=
  ⟨(find_clinics_spec "Boston" "emergency").1 (by decide),
   (find_clinics_spec "Boston" "urgent").2 (by decide)⟩

/-- Appending for `uid` extends exactly that session by one message. -/
theorem getHistory_storeAppend_self (s : ConversationStore) (uid : String) (m : ChatMessage) :
    getHistory (storeAppend s uid m) uid = getHistory s uid ++ [m] := by
  simp [getHistory, storeAppend]

/-- Appending never removes messages from any session. -/
theorem storeAppend_preserves_history (s : ConversationStore) (uid : String) (m : ChatMessage)
    (u : String) : getHistory s u <+: getHistory (storeAppend s uid m) u := by
  by_cases h : u = uid
  · subst h
    rw [getHistory_storeAppend_self]
    exact List.prefix_append _ _
  · simp only [getHistory, storeAppend, if_neg h]
    exact List.prefix_refl _

/-- Claim C6: the session store preserves strict insertion order —
appending A, B, C to a fresh session yields exactly [A, B, C] — and
neither a bare append nor a whole `/api/chat` turn ever removes a
message from any session. -/
theorem store_insertion_order (s : ConversationStore) (uid : String) (A B C : ChatMessage) :
    (getHistory s uid = [] →
      getHistory (storeAppend (storeAppend (storeAppend s uid A) uid B) uid C) uid = [A, B, C]) ∧
    (∀ m : ChatMessage, ∀ u : String,
      getHistory s u <+: getHistory (storeAppend s uid m) u) ∧
    (∀ message profileLocation user_id : Option String, ∀ u : String,
      getHistory s u <+: getHistory (chatHandler s message profileLocation user_id).2 u) := by
  refine ⟨?_, ?_, ?_⟩
  · intro h0
    simp [getHistory_storeAppend_self, h0]
  · intro m u
    exact storeAppend_preserves_history s uid m u
  · intro message profileLocation user_id u
    simp only [chatHandler]
    by_cases hf : jsFalsy message = true
    · simp only [hf, if_pos]
      exact List.prefix_refl _
    · simp only [hf, if_neg, Bool.false_eq_true, not_false_eq_true]
      exact (storeAppend_preserves_history s _ _ u).trans (storeAppend_preserves_history _ _ _ u)

/-- Claim C6 witness: three appends to a fresh session read back in
insertion order. -/
theorem store_insertion_order_witness :
    getHistory (storeAppend (storeAppend (storeAppend emptyStore "alice"
        { role := "user", content := "A" }) "alice"
        { role := "assistant", content := "B" }) "alice"
        { role := "user", content := "C" }) "alice" =
      [{ role := "user", content := "A" },
       { role := "assistant", content := "B" },
       { role := "user", content := "C" }] :=
  (store_insertion_order emptyStore "alice"
    { role := "user", content := "A" }
    { role := "assistant", content := "B" }
    { role := "user", content := "C" }).1 rfl

/-- Claim C7: reset is idempotent and always succeeds — resetting twice
equals resetting once, the history afterwards is empty (even for a
session that was never created), and the reset handler answers success
unconditionally. -/
theorem reset_idempotent_total (s : ConversationStore) (uid : String) (user_id : Option String) :
    resetStore (resetStore s uid) uid = resetStore s uid ∧
    getHistory (resetStore s uid) uid = [] ∧
    (resetHandler s user_id).1 = { status := 200, message := "Conversation reset successfully" } ∧
    getHistory ((resetHandler s (some uid)).2) uid = [] := by
  refine ⟨?_, ?_, rfl, ?_⟩
  · cases h : s uid with
    | none => simp [resetStore, h]
    | some l =>
        have h1 : resetStore s uid = fun u => if u = uid then none else s u := by
          simp [resetStore, h]
        rw [h1]
        simp [resetStore]
  · cases h : s uid with
    | none => simp [getHistory, resetStore, h]
    | some l => simp [getHistory, resetStore, h]
  · cases h : s uid with
    | none => simp [resetHandler, getHistory, resetStore, h]
    | some l => simp [resetHandler, getHistory, resetStore, h]

/-- Claim C8: a chat request without a message is answered 400 with the
fixed error body, and a request with a non-empty message never takes the
400 branch (it is answered 200). -/
theorem chat_requires_message (s : ConversationStore) (profileLocation user_id : Option String)
    (m : String) :
    (chatHandler s none profileLocation user_id).1 =
      { status := 400, error := some "Message is required", reply := none } ∧
    (m ≠ "" → (chatHandler s (some m) profileLocation user_id).1.status = 200) := by
  constructor
  · rfl
  · intro hm
    simp [chatHandler, jsFalsy, hm]

/-- Claim C8 witness: a missing message yields the 400 body; the message
"hello" yields status 200. -/
theorem chat_requires_message_witness :
    (chatHandler emptyStore none none none).1 =
      { status := 400, error := some "Message is required", reply := none } ∧
    (chatHandler emptyStore (some "hello") none none).1.status = 200 :=
  ⟨(chat_requires_message emptyStore none none "hello").1,
   (chat_requires_message emptyStore none none "hello").2 (by decide)⟩

/-- Claim C9: the insurance summarizer is constant except for the
filename field, and a successful PDF upload returns exactly that fixed
summary with the uploaded file's original name. -/
theorem insurance_summary_constant (f₁ f₂ : String) (file : UploadFile) :
    (mockInsuranceCheck f₁).filename = f₁ ∧
    { mockInsuranceCheck f₁ with filename := f₂ } = mockInsuranceCheck f₂ ∧
    (file.mimetype = "application/pdf" →
      uploadHandler (some file) =
        { status := 200, error := none, filename := some file.originalname,
          insurance_summary := some (mockInsuranceCheck file.originalname),
          message := some "Insurance document processed successfully" }) := by
  refine ⟨rfl, rfl, ?_⟩
  intro hmime
  simp [uploadHandler, hmime]

/-- Claim C9 witness: concrete filenames and a concrete PDF upload. -/
theorem insurance_summary_constant_witness :
    (mockInsuranceCheck "a.pdf").filename = "a.pdf" ∧
    { mockInsuranceCheck "a.pdf" with filename := "b.pdf" } = mockInsuranceCheck "b.pdf" ∧
    uploadHandler (some { originalname := "card.pdf", mimetype := "application/pdf" }) =
      { status := 200, error := none, filename := some "card.pdf",
        insurance_summary := some (mockInsuranceCheck "card.pdf"),
        message := some "Insurance document processed successfully" } :=
  ⟨(insurance_summary_constant "a.pdf" "b.pdf"
      { originalname := "card.pdf", mimetype := "application/pdf" }).1,
   (insurance_summary_constant "a.pdf" "b.pdf"
      { originalname := "card.pdf", mimetype := "application/pdf" }).2.1,
   (insurance_summary_constant "a.pdf" "b.pdf"
      { originalname := "card.pdf", mimetype := "application/pdf" }).2.2 rfl⟩

/-- Claim C10: the chat handler's check is falsiness — a present but
empty message is also answered 400 — and the 400 path returns the store
untouched (no session created, no message appended, for any user id). -/
theorem chat_empty_message_atomic (s : ConversationStore) (profileLocation user_id : Option String) :
    chatHandler s (some "") profileLocation user_id =
      ({ status := 400, error := some "Message is required", reply := none }, s) ∧
    chatHandler s none profileLocation user_id =
      ({ status := 400, error := some "Message is required", reply := none }, s) :=
  ⟨rfl, rfl⟩

end NurseAlly
